import Mathlib

/-!
Verification of the document-retrieval core of the Owlet remote MCP server
(`remote_mcp_server.py`): the `search` / `fetch` tools, the rate limiter,
the output sanitizer and the per-category formatters.

Python values flowing through the server (JSON-like dicts, lists, strings,
numbers, booleans, None) are modelled by the inductive type `Value`.
Python dicts are association lists in insertion order.  Numbers are
rationals.  Functions that the source accesses on external collaborators
(the device roster, per-device telemetry snapshots, the wall clock) are
passed in as explicit arguments.  Raised exceptions are modelled by
`Except PyErr`, where `PyErr` records the Python exception class name and
its message.
-/

namespace Owlet

/-- JSON-like Python value. -/
inductive Value where
  | null
  | bool (b : Bool)
  | num (q : ℚ)
  | str (s : String)
  | arr (elems : List Value)
  | obj (entries : List (String × Value))

/-- A telemetry snapshot: the `properties` dict of a device. -/
abbrev Props := List (String × Value)

/-- ASCII lower-casing of one character (models `str.lower` on the ASCII
keys and queries the server handles). -/
def lowerChar (c : Char) : Char :=
  if 'A' ≤ c ∧ c ≤ 'Z' then Char.ofNat (c.toNat + 32) else c

/-- `s.lower()`. -/
def pyLower (s : String) : String := ⟨s.data.map lowerChar⟩

/-- `s.strip()`. -/
def pyStrip (s : String) : String :=
  ⟨((s.data.dropWhile Char.isWhitespace).reverse.dropWhile Char.isWhitespace).reverse⟩

/-- Substring occurrence on character lists. -/
def listInfix (pat : List Char) : List Char → Bool
  | [] => pat.isEmpty
  | c :: rest => pat.isPrefixOf (c :: rest) || listInfix pat rest

/-- Python `pat in s` for strings. -/
def containsTerm (s pat : String) : Bool := listInfix pat.data s.data

/-- First binding of a key in a dict (Python dicts hold one binding per
key; association-list lookup returns the first). -/
def lookupStr (kvs : List (String × Value)) (k : String) : Option Value :=
  match kvs with
  | [] => none
  | (k', v) :: rest => if k' = k then some v else lookupStr rest k

/-- `properties.get(key)` (default `None`). -/
def pyGet (p : Props) (k : String) : Value := (lookupStr p k).getD .null

/-- `properties.get(key, default)`. -/
def pyGetD (p : Props) (k : String) (d : Value) : Value := (lookupStr p k).getD d

/-- `key in properties`. -/
def hasProp (p : Props) (k : String) : Bool := (lookupStr p k).isSome

/-- Python truthiness of a value. -/
def truthy : Value → Bool
  | .null => false
  | .bool b => b
  | .num q => decide (q ≠ 0)
  | .str s => decide (s ≠ "")
  | .arr xs => !xs.isEmpty
  | .obj kvs => !kvs.isEmpty

/-- Numeric reading of a value where the source uses it in arithmetic or
comparisons (Python treats bools as ints there).  Theorems about numeric
behaviour always hypothesise an actual `num`. -/
def toQ : Value → ℚ
  | .num q => q
  | .bool true => 1
  | .bool false => 0
  | _ => 0

/-- Rendering of an integer-valued rational (used by `str` on numbers read
from snapshots; non-integral readings are not exercised by the claims). -/
def ratStr (q : ℚ) : String :=
  if q.den = 1 then toString q.num else toString q.num ++ "/" ++ toString q.den

/-- Python `str(value)` as used inside the f-strings of the formatters. -/
def pyStr : Value → String
  | .null => "None"
  | .bool b => if b then "True" else "False"
  | .num q => ratStr q
  | .str s => s
  | .arr _ => "[...]"
  | .obj _ => "\x7b...\x7d"

/-- Python `format(q, ".1f")` for the non-negative exact-tenths readings
the formatters produce (rounding to nearest tenth). -/
def pyFormat1 (q : ℚ) : String :=
  let n : ℤ := ⌊q * 10 + 1 / 2⌋
  toString (n / 10) ++ "." ++ toString (n % 10)

/-- Python `round(q, 1)`. -/
def pyRound1 (q : ℚ) : ℚ := (⌊q * 10 + 1 / 2⌋ : ℚ) / 10

/-- Python `sep.join(parts)`. -/
def pyJoin (sep : String) : List String → String
  | [] => ""
  | [x] => x
  | x :: xs => x ++ sep ++ pyJoin sep xs

/-- Field lookup inside an `obj` value. -/
def getKey (v : Value) (k : String) : Option Value :=
  match v with
  | .obj kvs => lookupStr kvs k
  | _ => none

/-- Lookup along a path of keys. -/
def getPath (v : Value) : List String → Option Value
  | [] => some v
  | k :: ks => match getKey v k with
               | some w => getPath w ks
               | none => none

/-- A raised Python exception: class name and message. -/
structure PyErr where
  exc : String
  msg : String

/-- The ambient clock: `datetime.now().isoformat()`, `datetime.now()` as an
epoch instant in seconds, and `datetime.fromtimestamp(t).isoformat()`. -/
structure Clock where
  nowIso : String
  nowT : ℚ
  isoOfTs : ℚ → String

/-- A `Sock` device as consumed by the server (fields read by the code
under verification). -/
structure Device where
  serial : String
  name : String
  model : String
  oem_model : String
  sw_version : String
  mac : String
  lan_ip : String
  version : Value
  connection_status : String
  device_type : String

/-! ## Output sanitizer (`sanitize_output`) -/

/-- The sensitive field names dropped by the sanitizer. -/
def sensitive_fields : List String := ["password", "token", "key", "secret"]

/-- `k.lower() in sensitive_fields`. -/
def isSensitiveField (k : String) : Bool := sensitive_fields.contains (pyLower k)

mutual

/-- `sanitize_output`: drop sensitive keys from dicts recursively, map over
lists, leave every other value unchanged. -/
def sanitize_output : Value → Value
  | .obj kvs => .obj (sanitizeEntries kvs)
  | .arr xs => .arr (sanitizeElems xs)
  | v => v

/-- The dict comprehension of `sanitize_output` over the items of a dict. -/
def sanitizeEntries : List (String × Value) → List (String × Value)
  | [] => []
  | (k, v) :: rest =>
      if isSensitiveField k then sanitizeEntries rest
      else (k, sanitize_output v) :: sanitizeEntries rest

/-- The list comprehension of `sanitize_output` over a list. -/
def sanitizeElems : List Value → List Value
  | [] => []
  | x :: xs => sanitize_output x :: sanitizeElems xs

end

mutual

/-- No key at any depth of the value is sensitive. -/
def noSensitive : Value → Bool
  | .obj kvs => noSensitiveEntries kvs
  | .arr xs => noSensitiveElems xs
  | _ => true

def noSensitiveEntries : List (String × Value) → Bool
  | [] => true
  | (k, v) :: rest => !isSensitiveField k && noSensitive v && noSensitiveEntries rest

def noSensitiveElems : List Value → Bool
  | [] => true
  | x :: xs => noSensitive x && noSensitiveElems xs

end

mutual

/-- `json.dumps` modelled as a plain JSON rendering (whitespace and string
escaping are not reproduced; no theorem inspects the rendered text). -/
def dumps : Value → String
  | .null => "null"
  | .bool b => if b then "true" else "false"
  | .num q => ratStr q
  | .str s => "\"" ++ s ++ "\""
  | .arr xs => "[" ++ dumpsElems xs ++ "]"
  | .obj kvs => "\x7b" ++ dumpsEntries kvs ++ "\x7d"

def dumpsElems : List Value → String
  | [] => ""
  | [x] => dumps x
  | x :: xs => dumps x ++ ", " ++ dumpsElems xs

def dumpsEntries : List (String × Value) → String
  | [] => ""
  | [(k, v)] => "\"" ++ k ++ "\": " ++ dumps v
  | (k, v) :: rest => "\"" ++ k ++ "\": " ++ dumps v ++ ", " ++ dumpsEntries rest

end

/-! ## Rate limiter (`rate_limit`) -/

def REQUEST_LIMIT : Nat := 100

def TIME_WINDOW : ℚ := 60

/-- One pass of the `rate_limit` wrapper over the per-caller timestamp
list `request_counts[client_id]`: prune entries at or before
`now - TIME_WINDOW`, reject if the remaining count reaches the limit,
otherwise record `now`.  Returns (admitted?, new list). -/
def rate_limit_step (times : List ℚ) (current_time : ℚ) : Bool × List ℚ :=
  let cutoff_time := current_time - TIME_WINDOW
  let pruned := times.filter (fun req_time => decide (cutoff_time < req_time))
  if REQUEST_LIMIT ≤ pruned.length then (false, pruned)
  else (true, pruned ++ [current_time])

/-- A sequence of calls for one caller, returning the admission verdicts in
order together with the final per-caller state. -/
def rate_limit_run (times : List ℚ) : List ℚ → List Bool × List ℚ
  | [] => ([], times)
  | t :: rest =>
      let step := rate_limit_step times t
      let tail := rate_limit_run step.2 rest
      (step.1 :: tail.1, tail.2)

/-! ## Query validation (`validate_query`) -/

def validate_query (query : String) : Bool :=
  if query = "" ∨ (pyStrip query).length = 0 then false
  else if 500 < query.length then false
  else true

/-! ## Search-side formatters -/

/-- `format_vitals_for_search`. -/
def format_vitals_for_search (properties : Props) (device_name device_serial : String) : Value :=
  let hrPart :=
    match lookupStr properties "heart_rate" with
    | some v => ["HR: " ++ pyStr v ++ " BPM"]
    | none => []
  let oxPart :=
    match lookupStr properties "oxygen_saturation" with
    | some v => ["O2: " ++ pyStr v ++ "%"]
    | none => []
  let tempPart :=
    match lookupStr properties "skin_temperature" with
    | some v =>
        let temp_c := if toQ v > 100 then toQ v / 10 else toQ v
        ["Temp: " ++ pyFormat1 temp_c ++ "°C"]
    | none => []
  let summary_parts := hrPart ++ oxPart ++ tempPart
  let summary :=
    if summary_parts.isEmpty then "Monitoring data available"
    else pyJoin ", " summary_parts
  .obj [("id", .str ("vitals_" ++ device_serial)),
        ("title", .str ("Current Vitals - " ++ device_name)),
        ("text", .str summary),
        ("url", .str ("https://app.owletdata.com/device/" ++ device_serial))]

def alert_keys : List String :=
  ["critical_oxygen_alert", "critical_battery_alert", "low_oxygen_alert",
   "high_oxygen_alert", "low_heart_rate_alert", "high_heart_rate_alert",
   "low_battery_alert", "lost_power_alert", "sock_disconnected", "sock_off"]

/-- `format_alerts_for_search`. -/
def format_alerts_for_search (properties : Props) (device_name device_serial : String) : Value :=
  let active := alert_keys.filter (fun k => truthy (pyGet properties k))
  let alert_count := active.length
  let critical_alerts := (active.filter (fun k => containsTerm k "critical")).length
  let summary :=
    if alert_count = 0 then "No active alerts - monitoring normally"
    else if 0 < critical_alerts then
      toString critical_alerts ++ " critical alerts, " ++ toString alert_count ++ " total alerts"
    else toString alert_count ++ " active alerts"
  .obj [("id", .str ("alerts_" ++ device_serial)),
        ("title", .str ("Alert Status - " ++ device_name)),
        ("text", .str summary),
        ("url", .str ("https://app.owletdata.com/device/" ++ device_serial ++ "/alerts"))]

/-- The device-status result built inline in `search`. -/
def statusSearchDoc (device : Device) (properties : Props) : Value :=
  let battery_level := pyGetD properties "battery_percentage" (.num 0)
  let connection_status :=
    if device.connection_status = "Online" then "Connected" else device.connection_status
  .obj [("id", .str ("status_" ++ device.serial)),
        ("title", .str ("Device Status - " ++ device.name)),
        ("text", .str ("Connection: " ++ connection_status ++ ", Battery: " ++ pyStr battery_level ++ "%")),
        ("url", .str ("https://app.owletdata.com/device/" ++ device.serial ++ "/status"))]

/-- The wellness-summary result built inline in `search`. -/
def wellnessSearchDoc (device : Device) (properties : Props) : Value :=
  let hr := pyGetD properties "heart_rate" (.str "N/A")
  let ox := pyGetD properties "oxygen_saturation" (.str "N/A")
  let alerts :=
    if !(truthy (pyGet properties "critical_oxygen_alert")
         || truthy (pyGet properties "critical_battery_alert")) then "No alerts"
    else "Active alerts"
  .obj [("id", .str ("wellness_" ++ device.serial)),
        ("title", .str ("Wellness Summary - " ++ device.name)),
        ("text", .str ("HR: " ++ pyStr hr ++ ", O2: " ++ pyStr ox ++ "%, Status: " ++ alerts)),
        ("url", .str ("https://app.owletdata.com/device/" ++ device.serial ++ "/wellness"))]

/-- The historical-data result built inline in `search`. -/
def historySearchDoc (clk : Clock) (device : Device) (properties : Props) : Value :=
  let start_time := pyGet properties "monitoring_start_time"
  let duration_text :=
    if truthy start_time then
      "Monitoring for " ++ toString (⌊(clk.nowT - toQ start_time) / 3600⌋ : ℤ) ++ "h"
    else "Session active"
  .obj [("id", .str ("history_" ++ device.serial)),
        ("title", .str ("Historical Data - " ++ device.name)),
        ("text", .str (duration_text ++ ", trends and patterns available")),
        ("url", .str ("https://app.owletdata.com/device/" ++ device.serial ++ "/history"))]

/-- The live-feed result built inline in `search`. -/
def liveSearchDoc (device : Device) : Value :=
  let sock_version : Value := if truthy device.version then device.version else .str "Unknown"
  let capability :=
    match sock_version with
    | .num q => if q = 3 then "Full live monitoring" else "Real-time vitals"
    | _ => "Real-time vitals"
  .obj [("id", .str ("live_" ++ device.serial)),
        ("title", .str ("Live Feed Access - " ++ device.name)),
        ("text", .str ("Sock v" ++ pyStr sock_version ++ ": " ++ capability ++ " available")),
        ("url", .str ("https://app.owletdata.com/device/" ++ device.serial ++ "/live"))]

/-- The generic per-device fallback result of `search`. -/
def deviceFallbackDoc (device : Device) : Value :=
  .obj [("id", .str ("device_" ++ device.serial)),
        ("title", .str ("Owlet Device - " ++ device.name)),
        ("text", .str ("Model: " ++ device.model ++ ", Status: " ++ device.connection_status)),
        ("url", .str ("https://app.owletdata.com/device/" ++ device.serial))]

def invalid_query_doc : Value :=
  .obj [("id", .str "error_invalid_query"),
        ("title", .str "Invalid Query"),
        ("text", .str "Query validation failed. Please provide a valid search query."),
        ("url", .str "https://app.owletdata.com")]

def no_devices_doc : Value :=
  .obj [("id", .str "no_devices"),
        ("title", .str "No Owlet Devices Found"),
        ("text", .str "No Owlet devices are currently available in your account."),
        ("url", .str "https://app.owletdata.com")]

def searchErrorDoc (e : PyErr) : Value :=
  .obj [("id", .str "error"),
        ("title", .str "Search Error"),
        ("text", .str ("Unable to search monitoring data: " ++ e.msg)),
        ("url", .str "https://app.owletdata.com")]

/-! ## Query routing (`search`) -/

def vitals_terms : List String := ["vitals", "heart", "oxygen", "temperature", "current", "now"]
def alert_terms : List String := ["alert", "warning", "critical", "alarm", "problem"]
def status_terms : List String := ["device", "status", "battery", "connection", "base station"]
def wellness_terms : List String := ["wellness", "summary", "overview", "health", "report"]
def history_terms : List String := ["history", "historical", "trends", "past", "data"]
def live_terms : List String := ["live", "feed", "camera", "video", "streaming", "real-time"]

/-- `any(term in query_lower for term in terms)`. -/
def matchesAny (query_lower : String) (terms : List String) : Bool :=
  terms.any (fun t => containsTerm query_lower t)

/-- The results contributed by one device: its per-device `try` block.  A
failing snapshot fetch skips the device. -/
def deviceResults (query_lower : String) (clk : Clock)
    (snap : Device → Except PyErr Props) (device : Device) : List Value :=
  match snap device with
  | .error _ => []
  | .ok properties =>
      (if matchesAny query_lower vitals_terms then
        [format_vitals_for_search properties device.name device.serial] else []) ++
      (if matchesAny query_lower alert_terms then
        [format_alerts_for_search properties device.name device.serial] else []) ++
      (if matchesAny query_lower status_terms then
        [statusSearchDoc device properties] else []) ++
      (if matchesAny query_lower wellness_terms then
        [wellnessSearchDoc device properties] else []) ++
      (if matchesAny query_lower history_terms then
        [historySearchDoc clk device properties] else []) ++
      (if matchesAny query_lower live_terms then
        [liveSearchDoc device] else [])

/-- The `search` tool.  The device roster and the per-device snapshot
fetch are the external collaborators; a roster failure is the outer
`except` branch. -/
def search (query : String) (clk : Clock) (devicesRes : Except PyErr (List Device))
    (snap : Device → Except PyErr Props) : Value :=
  if query = "" ∨ pyStrip query = "" then .obj [("results", .arr [])]
  else if validate_query query = false then .obj [("results", .arr [invalid_query_doc])]
  else
    let query_lower := pyLower query
    match devicesRes with
    | .error e => .obj [("results", .arr [searchErrorDoc e])]
    | .ok devices =>
      if devices.isEmpty then .obj [("results", .arr [no_devices_doc])]
      else
        let results := (devices.map (deviceResults query_lower clk snap)).flatten
        let final := if results.isEmpty then devices.map deviceFallbackDoc else results
        .obj [("results", sanitize_output (.arr final))]

/-! ## Detailed content generators (fetch side) -/

/-- `{0: "Awake", 1: "Light Sleep", 2: "Deep Sleep"}.get(v, "Unknown")`. -/
def sleepStateName : Value → String
  | .num q =>
      if q = 0 then "Awake"
      else if q = 1 then "Light Sleep"
      else if q = 2 then "Deep Sleep"
      else "Unknown"
  | _ => "Unknown"

/-- Python `v == 3` on a sock version. -/
def versionIs3 : Value → Bool
  | .num q => decide (q = 3)
  | _ => false

/-- Python `v == 2` on a sock version. -/
def versionIs2 : Value → Bool
  | .num q => decide (q = 2)
  | _ => false

/-- The `vitals_data` structure of `_generate_vitals_content`. -/
def vitalsData (device : Device) (properties : Props) (clk : Clock) : Value :=
  let vitalsEntries : List (String × Value) :=
    (match lookupStr properties "heart_rate" with
     | some v =>
        [("heart_rate", .obj [("value", v), ("unit", .str "BPM"),
            ("status", .str (if 60 ≤ toQ v ∧ toQ v ≤ 160 then "normal" else "attention_needed"))])]
     | none => []) ++
    (match lookupStr properties "oxygen_saturation" with
     | some v =>
        [("oxygen_saturation", .obj [("value", v), ("unit", .str "%"),
            ("status", .str (if 95 ≤ toQ v then "normal" else "attention_needed"))])]
     | none => []) ++
    (match lookupStr properties "skin_temperature" with
     | some v =>
        let temp_c := if toQ v > 100 then toQ v / 10 else toQ v
        let temp_f := temp_c * 9 / 5 + 32
        [("skin_temperature", .obj [("celsius", .num temp_c), ("fahrenheit", .num temp_f),
            ("unit", .str "°C"), ("status", .str "normal")])]
     | none => []) ++
    (match lookupStr properties "sleep_state" with
     | some v =>
        [("sleep_state", .obj [("value", .str (sleepStateName v)), ("numeric_value", v)])]
     | none => []) ++
    (match lookupStr properties "movement" with
     | some v =>
        [("movement", .obj [("level", v),
            ("status", .str (if toQ v > 5 then "active" else "calm"))])]
     | none => [])
  let statusEntries : List (String × Value) :=
    [("battery_percentage", pyGet properties "battery_percentage"),
     ("signal_strength", pyGet properties "signal_strength"),
     ("charging", pyGetD properties "charging" (.bool false)),
     ("base_station_on", pyGetD properties "base_station_on" (.bool false)),
     ("sock_connection", pyGetD properties "sock_connection" (.bool false)),
     ("last_updated", pyGet properties "last_updated")]
  .obj [("timestamp", .str clk.nowIso),
        ("device", .obj [("name", .str device.name), ("serial", .str device.serial),
                         ("model", .str device.model), ("version", device.version)]),
        ("vitals", .obj vitalsEntries),
        ("status", .obj statusEntries)]

/-- `_generate_vitals_content`. -/
def generate_vitals_content (device : Device) (properties : Props) (clk : Clock) : Value :=
  .obj [("id", .str ("vitals_" ++ device.serial)),
        ("title", .str ("Current Vital Signs - " ++ device.name)),
        ("text", .str (dumps (vitalsData device properties clk))),
        ("url", .str ("https://app.owletdata.com/device/" ++ device.serial)),
        ("metadata", .obj [("source", .str "owlet_api"),
                           ("device_serial", .str device.serial),
                           ("data_type", .str "vitals"),
                           ("timestamp", .str clk.nowIso)])]

def critical_alert_list : List (String × String) :=
  [("critical_oxygen_alert", "Critical Low Oxygen"),
   ("critical_battery_alert", "Critical Battery Level")]

def standard_alert_list : List (String × String) :=
  [("low_oxygen_alert", "Low Oxygen Level"), ("high_oxygen_alert", "High Oxygen Level"),
   ("low_heart_rate_alert", "Low Heart Rate"), ("high_heart_rate_alert", "High Heart Rate"),
   ("low_battery_alert", "Low Battery"), ("lost_power_alert", "Lost Power"),
   ("sock_disconnected", "Sock Disconnected"), ("sock_off", "Sock Removed")]

/-- `_generate_alerts_content`. -/
def generate_alerts_content (device : Device) (properties : Props) (clk : Clock) : Value :=
  let criticalActive := critical_alert_list.filter (fun kd => truthy (pyGet properties kd.1))
  let standardActive := standard_alert_list.filter (fun kd => truthy (pyGet properties kd.1))
  let critical_count := criticalActive.length
  let total_count := critical_count + standardActive.length
  let alerts_data : Value := .obj [
    ("timestamp", .str clk.nowIso),
    ("device", .obj [("name", .str device.name), ("serial", .str device.serial)]),
    ("critical_alerts", .obj (criticalActive.map (fun kd => (kd.1, Value.obj
        [("active", .bool true), ("description", .str kd.2), ("severity", .str "critical")])))),
    ("standard_alerts", .obj (standardActive.map (fun kd => (kd.1, Value.obj
        [("active", .bool true), ("description", .str kd.2), ("severity", .str "warning")])))),
    ("wellness_alerts", .obj (if truthy (pyGet properties "wellness_alert") then
        [("wellness_alert", Value.obj [("active", .bool true),
            ("description", .str "Wellness Notification"), ("severity", .str "info")])]
      else [])),
    ("alert_summary", .obj [("total_count", .num total_count),
        ("critical_count", .num critical_count),
        ("alert_paused", pyGetD properties "alert_paused_status" (.bool false))])]
  .obj [("id", .str ("alerts_" ++ device.serial)),
        ("title", .str ("Alert Status - " ++ device.name)),
        ("text", .str (dumps alerts_data)),
        ("url", .str ("https://app.owletdata.com/device/" ++ device.serial ++ "/alerts")),
        ("metadata", .obj [("source", .str "owlet_api"),
                           ("device_serial", .str device.serial),
                           ("data_type", .str "alerts"),
                           ("timestamp", .str clk.nowIso)])]

/-- `_generate_status_content`. -/
def generate_status_content (device : Device) (properties : Props) (clk : Clock) : Value :=
  let status_data : Value := .obj [
    ("timestamp", .str clk.nowIso),
    ("device_info", .obj [
      ("name", .str device.name), ("serial", .str device.serial), ("model", .str device.model),
      ("oem_model", .str device.oem_model), ("software_version", .str device.sw_version),
      ("hardware_version", pyGet properties "hardware_version"),
      ("mac_address", .str device.mac), ("lan_ip", .str device.lan_ip),
      ("sock_version", device.version)]),
    ("connectivity", .obj [
      ("device_status", .str device.connection_status),
      ("sock_connected", pyGetD properties "sock_connection" (.bool false)),
      ("base_station_on", pyGetD properties "base_station_on" (.bool false)),
      ("signal_strength", pyGet properties "signal_strength"),
      ("readings_active", pyGetD properties "readings_flag" (.bool false))]),
    ("power", .obj [
      ("battery_percentage", pyGet properties "battery_percentage"),
      ("battery_minutes_remaining", pyGet properties "battery_minutes"),
      ("charging", pyGetD properties "charging" (.bool false)),
      ("base_battery_status", pyGet properties "base_battery_status")]),
    ("monitoring", .obj [
      ("monitoring_start_time", pyGet properties "monitoring_start_time"),
      ("last_updated", pyGet properties "last_updated"),
      ("update_status", pyGet properties "update_status"),
      ("firmware_update_available", pyGetD properties "firmware_update_available" (.bool false))])]
  .obj [("id", .str ("status_" ++ device.serial)),
        ("title", .str ("Device Status - " ++ device.name)),
        ("text", .str (dumps status_data)),
        ("url", .str ("https://app.owletdata.com/device/" ++ device.serial ++ "/status")),
        ("metadata", .obj [("source", .str "owlet_api"),
                           ("device_serial", .str device.serial),
                           ("data_type", .str "status"),
                           ("timestamp", .str clk.nowIso)])]

/-- The `wellness_data` structure of `_generate_wellness_content`. -/
def wellnessData (device : Device) (properties : Props) (clk : Clock) : Value :=
  let hrEntry := lookupStr properties "heart_rate"
  let oxEntry := lookupStr properties "oxygen_saturation"
  let hr_normal :=
    match hrEntry with
    | some v => decide (60 ≤ toQ v ∧ toQ v ≤ 160)
    | none => true
  let ox_normal :=
    match oxEntry with
    | some v => decide (95 ≤ toQ v)
    | none => true
  let critical_alerts :=
    truthy (pyGet properties "critical_oxygen_alert") ||
    truthy (pyGet properties "critical_battery_alert") ||
    truthy (pyGet properties "sock_disconnected") ||
    truthy (pyGet properties "sock_off")
  let overall_status :=
    if critical_alerts then "attention_needed"
    else if hr_normal && ox_normal then "good"
    else "monitoring"
  let concerns : List Value :=
    if critical_alerts then [.str "Critical alerts detected - check immediately"] else []
  let sleepEntry := lookupStr properties "sleep_state"
  let recommendations : List Value :=
    (if !critical_alerts && (hr_normal && ox_normal) then
       [.str "Baby appears to be doing well - continue normal monitoring"] else []) ++
    (match sleepEntry with
     | some v =>
        if sleepStateName v = "Deep Sleep" then
          [.str "Baby is in deep sleep - optimal rest state"] else []
     | none => [])
  let current_vitals : List (String × Value) :=
    (match hrEntry with
     | some v => [("heart_rate", Value.obj [("value", v),
         ("status", .str (if 60 ≤ toQ v ∧ toQ v ≤ 160 then "normal" else "attention_needed"))])]
     | none => []) ++
    (match oxEntry with
     | some v => [("oxygen_saturation", Value.obj [("value", v),
         ("status", .str (if 95 ≤ toQ v then "normal" else "attention_needed"))])]
     | none => []) ++
    (match sleepEntry with
     | some v => [("sleep_state", .str (sleepStateName v))]
     | none => [])
  let monitoring_session : List (String × Value) :=
    if truthy (pyGet properties "monitoring_start_time") then
      let start := toQ (pyGet properties "monitoring_start_time")
      [("started", .str (clk.isoOfTs start)),
       ("duration_hours", .num ((clk.nowT - start) / 3600)),
       ("last_updated", pyGet properties "last_updated")]
    else []
  .obj [("timestamp", .str clk.nowIso),
        ("device", .obj [("name", .str device.name), ("serial", .str device.serial)]),
        ("wellness_assessment", .obj [("overall_status", .str overall_status),
            ("recommendations", .arr recommendations), ("concerns", .arr concerns)]),
        ("current_vitals", .obj current_vitals),
        ("monitoring_session", .obj monitoring_session),
        ("emergency_guidance", .obj [
            ("important_note", .str "Owlet monitors are not medical devices. Always trust parental instincts and contact healthcare providers for medical concerns."),
            ("emergency_contact", .str "Contact emergency services immediately if baby appears unresponsive or in distress.")])]

/-- `_generate_wellness_content`. -/
def generate_wellness_content (device : Device) (properties : Props) (clk : Clock) : Value :=
  .obj [("id", .str ("wellness_" ++ device.serial)),
        ("title", .str ("Wellness Summary - " ++ device.name)),
        ("text", .str (dumps (wellnessData device properties clk))),
        ("url", .str ("https://app.owletdata.com/device/" ++ device.serial ++ "/wellness")),
        ("metadata", .obj [("source", .str "owlet_api"),
                           ("device_serial", .str device.serial),
                           ("data_type", .str "wellness"),
                           ("timestamp", .str clk.nowIso)])]

/-- `_generate_history_content`. -/
def generate_history_content (device : Device) (properties : Props) (clk : Clock) : Value :=
  let current_session : List (String × Value) :=
    if truthy (pyGet properties "monitoring_start_time") then
      let start := toQ (pyGet properties "monitoring_start_time")
      [("started", .str (clk.isoOfTs start)),
       ("duration_hours", .num (pyRound1 ((clk.nowT - start) / 3600))),
       ("last_updated", pyGet properties "last_updated")]
    else []
  let available_metrics : List Value :=
    if versionIs3 device.version then
      [.str "Heart rate trends and patterns",
       .str "Oxygen saturation levels over time",
       .str "Skin temperature variations",
       .str "Sleep state analysis (Awake/Light Sleep/Deep Sleep)",
       .str "Movement activity patterns",
       .str "Sleep duration and quality metrics",
       .str "Alert frequency and types",
       .str "Base station connectivity history"]
    else
      [.str "Heart rate monitoring history",
       .str "Oxygen level tracking",
       .str "Movement pattern analysis",
       .str "Charging session history",
       .str "Connection status logs",
       .str "Alert and notification history"]
  let history_info : Value := .obj [
    ("timestamp", .str clk.nowIso),
    ("device", .obj [("name", .str device.name), ("serial", .str device.serial),
                     ("version", device.version)]),
    ("current_session", .obj current_session),
    ("data_access", .obj [("web_dashboard", .str "https://app.owletdata.com"),
        ("mobile_app", .str "Owlet Care app available on iOS and Android"),
        ("available_metrics", .arr available_metrics)]),
    ("data_retention", .obj [("real_time", .str "Available while monitoring"),
        ("daily_summaries", .str "30+ days"), ("weekly_trends", .str "Several months"),
        ("monthly_reports", .str "Extended historical period")])]
  .obj [("id", .str ("history_" ++ device.serial)),
        ("title", .str ("Historical Data Access - " ++ device.name)),
        ("text", .str (dumps history_info)),
        ("url", .str ("https://app.owletdata.com/device/" ++ device.serial ++ "/history")),
        ("metadata", .obj [("source", .str "owlet_api"),
                           ("device_serial", .str device.serial),
                           ("data_type", .str "history"),
                           ("timestamp", .str clk.nowIso)])]

/-- `_generate_live_content`. -/
def generate_live_content (device : Device) (properties : Props) (clk : Clock) : Value :=
  let live_capabilities : List (String × Value) :=
    if versionIs3 device.version then
      [("real_time_vitals", .bool true), ("live_notifications", .bool true),
       ("streaming_data", .bool true), ("advanced_analytics", .bool true)]
    else
      [("real_time_vitals", .bool true), ("live_notifications", .bool true),
       ("streaming_data", .bool false), ("advanced_analytics", .bool false)]
  let mobile_features : List Value :=
    if versionIs3 device.version then
      [.str "Real-time heart rate monitoring", .str "Oxygen saturation levels",
       .str "Skin temperature readings", .str "Sleep state tracking",
       .str "Movement detection", .str "Push notifications for alerts",
       .str "Live data streaming"]
    else
      [.str "Real-time vital signs", .str "Push notifications for alerts",
       .str "Heart rate monitoring", .str "Oxygen level tracking",
       .str "Movement detection"]
  let web_features : List Value :=
    [.str "Live data dashboard", .str "Historical trends", .str "Alert management",
     .str "Device settings", .str "Export capabilities"]
  let live_info : Value := .obj [
    ("timestamp", .str clk.nowIso),
    ("device", .obj [("name", .str device.name), ("serial", .str device.serial),
                     ("version", device.version)]),
    ("live_capabilities", .obj live_capabilities),
    ("access_methods", .obj [
        ("mobile_app", .obj [("name", .str "Owlet Care app"),
            ("platforms", .arr [.str "iOS", .str "Android"]),
            ("features", .arr mobile_features)]),
        ("web_dashboard", .obj [("url", .str "https://app.owletdata.com"),
            ("features", .arr web_features)])]),
    ("current_status", .obj [
        ("monitoring_active", pyGetD properties "readings_flag" (.bool false)),
        ("base_station_on", pyGetD properties "base_station_on" (.bool false)),
        ("sock_connected", pyGetD properties "sock_connection" (.bool false)),
        ("last_update", pyGet properties "last_updated")])]
  .obj [("id", .str ("live_" ++ device.serial)),
        ("title", .str ("Live Feed Access - " ++ device.name)),
        ("text", .str (dumps live_info)),
        ("url", .str ("https://app.owletdata.com/device/" ++ device.serial ++ "/live")),
        ("metadata", .obj [("source", .str "owlet_api"),
                           ("device_serial", .str device.serial),
                           ("data_type", .str "live_feed"),
                           ("timestamp", .str clk.nowIso)])]

/-- `_generate_device_content`. -/
def generate_device_content (device : Device) (properties : Props) (clk : Clock) : Value :=
  let capabilities : List Value :=
    if versionIs3 device.version then
      [.str "Real-time heart rate monitoring", .str "Oxygen saturation tracking",
       .str "Skin temperature sensing", .str "Sleep state detection",
       .str "Movement tracking", .str "Advanced analytics",
       .str "Push notifications", .str "Historical data storage"]
    else if versionIs2 device.version then
      [.str "Heart rate monitoring", .str "Oxygen level tracking",
       .str "Movement detection", .str "Basic analytics",
       .str "Push notifications", .str "Historical data storage"]
    else
      [.str "Basic monitoring features", .str "Alert notifications"]
  let device_info : Value := .obj [
    ("timestamp", .str clk.nowIso),
    ("device_details", .obj [
        ("name", .str device.name), ("serial", .str device.serial),
        ("model", .str device.model), ("oem_model", .str device.oem_model),
        ("software_version", .str device.sw_version),
        ("hardware_version", pyGet properties "hardware_version"),
        ("sock_version", device.version), ("mac_address", .str device.mac),
        ("device_type", .str device.device_type)]),
    ("current_status", .obj [
        ("connection", .str device.connection_status),
        ("battery_level", pyGet properties "battery_percentage"),
        ("monitoring_active", pyGetD properties "readings_flag" (.bool false)),
        ("last_updated", pyGet properties "last_updated")]),
    ("capabilities", .arr capabilities),
    ("support_info", .obj [
        ("manufacturer", .str "Owlet Baby Care"),
        ("support_url", .str "https://support.owletcare.com"),
        ("app_download", .str "Search \x27Owlet Care\x27 in app stores")])]
  .obj [("id", .str ("device_" ++ device.serial)),
        ("title", .str ("Device Information - " ++ device.name)),
        ("text", .str (dumps device_info)),
        ("url", .str ("https://app.owletdata.com/device/" ++ device.serial)),
        ("metadata", .obj [("source", .str "owlet_api"),
                           ("device_serial", .str device.serial),
                           ("data_type", .str "device_info"),
                           ("timestamp", .str clk.nowIso)])]

/-! ## Document resolution (`fetch`) -/

def splitOnceAux (acc : List Char) : List Char → Option (String × String)
  | [] => none
  | c :: cs => if c = '_' then some (⟨acc.reverse⟩, ⟨cs⟩) else splitOnceAux (c :: acc) cs

/-- Python `id.split("_", 1)` restricted to the case of exactly two parts
(the source treats any other outcome as a format error). -/
def splitOnce (s : String) : Option (String × String) := splitOnceAux [] s.data

/-- The dispatch on the parsed category inside `fetch`. -/
def genContent (data_type : String) (device : Device) (properties : Props) (clk : Clock) :
    Except PyErr Value :=
  if data_type = "vitals" then .ok (generate_vitals_content device properties clk)
  else if data_type = "alerts" then .ok (generate_alerts_content device properties clk)
  else if data_type = "status" then .ok (generate_status_content device properties clk)
  else if data_type = "wellness" then .ok (generate_wellness_content device properties clk)
  else if data_type = "history" then .ok (generate_history_content device properties clk)
  else if data_type = "live" then .ok (generate_live_content device properties clk)
  else if data_type = "device" then .ok (generate_device_content device properties clk)
  else .error ⟨"ValueError", "Unknown data type: " ++ data_type⟩

/-- The body of the `try` block of `fetch`: parse, look up the device,
fetch a fresh snapshot, generate and sanitize the content. -/
def fetchBody (id : String) (clk : Clock) (devicesRes : Except PyErr (List Device))
    (snap : Device → Except PyErr Props) : Except PyErr Value :=
  match splitOnce id with
  | none => .error ⟨"ValueError", "Invalid document ID format: " ++ id⟩
  | some (data_type, device_serial) =>
    match devicesRes with
    | .error e => .error e
    | .ok devices =>
      match devices.find? (fun d => d.serial == device_serial) with
      | none => .error ⟨"ValueError", "Device " ++ device_serial ++ " not found"⟩
      | some target_device =>
        match snap target_device with
        | .error e => .error e
        | .ok properties =>
          match genContent data_type target_device properties clk with
          | .error e => .error e
          | .ok content => .ok (sanitize_output content)

/-- The `fetch` tool: an empty id is rejected up front; any exception
raised inside the body is re-raised as a `ValueError` naming the id. -/
def fetch (id : String) (clk : Clock) (devicesRes : Except PyErr (List Device))
    (snap : Device → Except PyErr Props) : Except PyErr Value :=
  if id = "" then .error ⟨"ValueError", "Document ID is required"⟩
  else
    match fetchBody id clk devicesRes snap with
    | .ok v => .ok v
    | .error e => .error ⟨"ValueError", "Unable to fetch document " ++ id ++ ": " ++ e.msg⟩

/-! ## Observation helpers used by the theorems -/

/-- The list under the `results` key of a search response. -/
def resultsList (v : Value) : Option (List Value) :=
  match getKey v "results" with
  | some (.arr xs) => some xs
  | _ => none

/-- How many documents a search response holds. -/
def resultsCount (v : Value) : Option Nat := (resultsList v).map List.length

/-- A field of a successfully fetched document. -/
def fetchedField (r : Except PyErr Value) (path : List String) : Option Value :=
  match r with
  | .ok v => getPath v path
  | .error _ => none

/-- The exception class of a failed call. -/
def errType : Except PyErr Value → Option String
  | .error e => some e.exc
  | .ok _ => none

/-- The exception message of a failed call. -/
def errMsg : Except PyErr Value → Option String
  | .error e => some e.msg
  | .ok _ => none

/-! ## Concrete fixtures used by witnesses and counterexamples -/

def dev0 : Device :=
  { serial := "S1", name := "Baby", model := "Smart Sock 3", oem_model := "OSS3",
    sw_version := "1.0", mac := "00:11", lan_ip := "10.0.0.2", version := .num 3,
    connection_status := "Online", device_type := "Sock" }

def clk0 : Clock :=
  { nowIso := "2026-01-01T00:00:00", nowT := 0, isoOfTs := fun _ => "1970-01-01T00:00:00" }

def snapEmpty : Device → Except PyErr Props := fun _ => .ok []

/-! ## Sanitizer lemmas -/

mutual

theorem sanitize_output_eq_of_noSensitive :
    ∀ v : Value, noSensitive v = true → sanitize_output v = v
  | .null, _ => rfl
  | .bool _, _ => rfl
  | .num _, _ => rfl
  | .str _, _ => rfl
  | .arr xs, h => by
      have hx : noSensitiveElems xs = true := h
      simp [sanitize_output, sanitizeElems_eq_of_noSensitive xs hx]
  | .obj kvs, h => by
      have hx : noSensitiveEntries kvs = true := h
      simp [sanitize_output, sanitizeEntries_eq_of_noSensitive kvs hx]

theorem sanitizeEntries_eq_of_noSensitive :
    ∀ kvs : List (String × Value), noSensitiveEntries kvs = true → sanitizeEntries kvs = kvs
  | [], _ => rfl
  | (k, v) :: rest, h => by
      have h' : (!isSensitiveField k && noSensitive v && noSensitiveEntries rest) = true := h
      simp only [Bool.and_eq_true, Bool.not_eq_true'] at h'
      obtain ⟨⟨hk, hv⟩, hrest⟩ := h'
      simp [sanitizeEntries, hk, sanitize_output_eq_of_noSensitive v hv,
            sanitizeEntries_eq_of_noSensitive rest hrest]

theorem sanitizeElems_eq_of_noSensitive :
    ∀ xs : List Value, noSensitiveElems xs = true → sanitizeElems xs = xs
  | [], _ => rfl
  | x :: xs, h => by
      have h' : (noSensitive x && noSensitiveElems xs) = true := h
      simp only [Bool.and_eq_true] at h'
      simp [sanitizeElems, sanitize_output_eq_of_noSensitive x h'.1,
            sanitizeElems_eq_of_noSensitive xs h'.2]

end

theorem sanitizeEntries_eq_filter_map (kvs : List (String × Value)) :
    sanitizeEntries kvs =
      (kvs.filter (fun e => !isSensitiveField e.1)).map (fun e => (e.1, sanitize_output e.2)) := by
  induction kvs with
  | nil => rfl
  | cons e rest ih =>
      obtain ⟨k, v⟩ := e
      by_cases hk : isSensitiveField k
      · simp [sanitizeEntries, hk, ih, List.filter_cons]
      · simp [sanitizeEntries, hk, ih, List.filter_cons]

theorem sanitizeElems_eq_map (xs : List Value) : sanitizeElems xs = xs.map sanitize_output := by
  induction xs with
  | nil => rfl
  | cons x xs ih => simp [sanitizeElems, ih]

/-- C6: `sanitize_output` drops, at every nesting depth, exactly the dict
entries whose key is case-insensitively sensitive while recursively
sanitizing the surviving values; it maps sequences elementwise preserving
order and length, returns every other value unchanged, and is the identity
on inputs with no sensitive key at any depth. -/
theorem c6_sanitize_output_spec :
    (∀ v : Value, noSensitive v = true → sanitize_output v = v) ∧
    (∀ kvs : List (String × Value),
      sanitize_output (.obj kvs) =
        .obj ((kvs.filter (fun e => !isSensitiveField e.1)).map
          (fun e => (e.1, sanitize_output e.2)))) ∧
    (∀ xs : List Value, sanitize_output (.arr xs) = .arr (xs.map sanitize_output)) ∧
    (∀ xs : List Value, (xs.map sanitize_output).length = xs.length) ∧
    (sanitize_output .null = .null) ∧
    (∀ b, sanitize_output (.bool b) = .bool b) ∧
    (∀ q, sanitize_output (.num q) = .num q) ∧
    (∀ s, sanitize_output (.str s) = .str s) ∧
    (∀ k, isSensitiveField k = sensitive_fields.contains (pyLower k)) := by
  refine ⟨sanitize_output_eq_of_noSensitive, ?_, ?_, ?_, rfl, fun _ => rfl, fun _ => rfl,
    fun _ => rfl, fun _ => rfl⟩
  · intro kvs; simp [sanitize_output, sanitizeEntries_eq_filter_map]
  · intro xs; simp [sanitize_output, sanitizeElems_eq_map]
  · intro xs; simp

/-- Witness for C6 at the specification example input. -/
theorem c6_sanitize_output_spec_witness :
    noSensitive (.obj [("heart_rate", .num 1)]) = true ∧
    sanitize_output (.obj [("heart_rate", .num 1)]) = .obj [("heart_rate", .num 1)] :=
  ⟨rfl, c6_sanitize_output_spec.1 _ rfl⟩

/-! ## Rate limiter lemmas -/

theorem filter_gt_replicate (k : Nat) (t c : ℚ) (h : c < t) :
    (List.replicate k t).filter (fun x => decide (c < x)) = List.replicate k t := by
  induction k with
  | zero => rfl
  | succ n ih => simp [List.replicate_succ, List.filter_cons, h, ih]

theorem filter_gt_replicate_none (k : Nat) (t c : ℚ) (h : ¬ c < t) :
    (List.replicate k t).filter (fun x => decide (c < x)) = [] := by
  induction k with
  | zero => rfl
  | succ n ih => simp [List.replicate_succ, List.filter_cons, h, ih]

theorem rate_limit_step_replicate_lt (k : Nat) (t : ℚ) (hk : k < REQUEST_LIMIT) :
    rate_limit_step (List.replicate k t) t = (true, List.replicate (k + 1) t) := by
  have hc : t - TIME_WINDOW < t := by unfold TIME_WINDOW; linarith
  unfold rate_limit_step
  simp only [filter_gt_replicate k t _ hc, List.length_replicate]
  rw [if_neg (by omega)]
  rw [← List.replicate_succ' k t]

theorem rate_limit_step_replicate_full (t : ℚ) :
    rate_limit_step (List.replicate REQUEST_LIMIT t) t = (false, List.replicate REQUEST_LIMIT t) := by
  have hc : t - TIME_WINDOW < t := by unfold TIME_WINDOW; linarith
  unfold rate_limit_step
  simp only [filter_gt_replicate _ t _ hc, List.length_replicate]
  rw [if_pos (le_refl _)]

theorem rate_limit_run_replicate (t : ℚ) :
    ∀ (n k : Nat), k + n ≤ REQUEST_LIMIT →
      rate_limit_run (List.replicate k t) (List.replicate n t) =
        (List.replicate n true, List.replicate (k + n) t)
  | 0, k, _ => by simp [rate_limit_run]
  | n + 1, k, h => by
      have hk : k < REQUEST_LIMIT := by omega
      have ih := rate_limit_run_replicate t n (k + 1) (by omega)
      rw [List.replicate_succ]
      simp only [rate_limit_run, rate_limit_step_replicate_lt k t hk, ih]
      rw [show k + 1 + n = k + (n + 1) by omega]
      simp [List.replicate_succ]

theorem rate_limit_run_append (xs ys : List ℚ) (st : List ℚ) :
    rate_limit_run st (xs ++ ys) =
      ((rate_limit_run st xs).1 ++ (rate_limit_run (rate_limit_run st xs).2 ys).1,
       (rate_limit_run (rate_limit_run st xs).2 ys).2) := by
  induction xs generalizing st with
  | nil => simp [rate_limit_run]
  | cons x xs ih => simp [rate_limit_run, ih]

/-- C4: for each caller, 100 calls inside one 60-second window are all
admitted, the 101st inside the same window is rejected, admission resumes
once the window has fully elapsed, and an admitted call never leaves more
than 100 recorded timestamps in the window. -/
theorem c4_rate_limiter_window (t : ℚ) :
    (rate_limit_run [] (List.replicate 100 t)).1 = List.replicate 100 true ∧
    rate_limit_run [] (List.replicate 101 t) =
      (List.replicate 100 true ++ [false], List.replicate 100 t) ∧
    (rate_limit_step (rate_limit_run [] (List.replicate 101 t)).2 (t + 61)).1 = true ∧
    (∀ st now, ((rate_limit_step st now).2).length ≤ max st.length REQUEST_LIMIT) := by
  have h100 : rate_limit_run [] (List.replicate 100 t) =
      (List.replicate 100 true, List.replicate 100 t) := by
    simpa using rate_limit_run_replicate t 100 0 (by norm_num [REQUEST_LIMIT])
  have h101 : rate_limit_run [] (List.replicate 101 t) =
      (List.replicate 100 true ++ [false], List.replicate 100 t) := by
    have hsplit : List.replicate 101 t = List.replicate 100 t ++ [t] := List.replicate_succ' 100 t
    have hfull := rate_limit_step_replicate_full (t := t)
    simp only [REQUEST_LIMIT] at hfull
    have hone : rate_limit_run (List.replicate 100 t) [t] = ([false], List.replicate 100 t) := by
      simp only [rate_limit_run, hfull]
    rw [hsplit, rate_limit_run_append, h100, hone]
  refine ⟨by rw [h100], h101, ?_, ?_⟩
  · rw [h101]
    have hc : ¬ (t + 61 - TIME_WINDOW < t) := by unfold TIME_WINDOW; linarith
    unfold rate_limit_step
    simp only [filter_gt_replicate_none 100 t _ hc, List.length_nil]
    rw [if_neg (by norm_num [REQUEST_LIMIT])]
  · intro st now
    unfold rate_limit_step
    by_cases hfull : REQUEST_LIMIT ≤ (st.filter (fun x => decide (now - TIME_WINDOW < x))).length
    · rw [if_pos hfull]
      exact le_max_of_le_left (List.length_filter_le _ st)
    · rw [if_neg hfull]
      refine le_max_of_le_right ?_
      rw [List.length_append]
      simp only [List.length_singleton]
      omega

/-- C9: a rejected call leaves the per-caller state equal to the pruned
list (no timestamp is recorded), the new state is a sublist of the old
one, and any instant that would have been admitted from the old state is
still admitted from the new one: rejected attempts never postpone
readmission. -/
theorem c9_reject_records_nothing (st : List ℚ) (now : ℚ)
    (h : (rate_limit_step st now).1 = false) :
    (rate_limit_step st now).2 = st.filter (fun x => decide (now - TIME_WINDOW < x)) ∧
    ((rate_limit_step st now).2).Sublist st ∧
    (∀ t : ℚ, (rate_limit_step st t).1 = true →
      (rate_limit_step ((rate_limit_step st now).2) t).1 = true) := by
  have hfull : REQUEST_LIMIT ≤ (st.filter (fun x => decide (now - TIME_WINDOW < x))).length := by
    by_contra hlt
    unfold rate_limit_step at h
    rw [if_neg hlt] at h
    cases h
  have h2 : rate_limit_step st now =
      (false, st.filter (fun x => decide (now - TIME_WINDOW < x))) := by
    unfold rate_limit_step
    rw [if_pos hfull]
  refine ⟨by rw [h2], by rw [h2]; exact List.filter_sublist st, ?_⟩
  intro t ht
  rw [h2]
  show (rate_limit_step (st.filter (fun x => decide (now - TIME_WINDOW < x))) t).1 = true
  by_cases ht2 : REQUEST_LIMIT ≤ (st.filter (fun x => decide (t - TIME_WINDOW < x))).length
  · unfold rate_limit_step at ht
    rw [if_pos ht2] at ht
    cases ht
  · have hsub : ((st.filter (fun x => decide (now - TIME_WINDOW < x))).filter
        (fun x => decide (t - TIME_WINDOW < x))).Sublist
        (st.filter (fun x => decide (t - TIME_WINDOW < x))) :=
      List.Sublist.filter _ (List.filter_sublist st)
    have hlen := hsub.length_le
    unfold rate_limit_step
    rw [if_neg (by omega)]

/-- Witness for C9: a full window of 100 timestamps rejects the next call
at the same instant, leaves the state exactly pruned, and a call after the
window has elapsed is admitted from both the old and the new state. -/
theorem c9_reject_records_nothing_witness :
    (rate_limit_step (List.replicate 100 (0 : ℚ)) 0).1 = false ∧
    (rate_limit_step (List.replicate 100 (0 : ℚ)) 0).2 =
      (List.replicate 100 (0 : ℚ)).filter (fun x => decide ((0 : ℚ) - TIME_WINDOW < x)) ∧
    ((rate_limit_step (List.replicate 100 (0 : ℚ)) 0).2).Sublist (List.replicate 100 (0 : ℚ)) ∧
    (rate_limit_step ((rate_limit_step (List.replicate 100 (0 : ℚ)) 0).2) 61).1 = true := by
  have hfull := rate_limit_step_replicate_full (t := (0 : ℚ))
  simp only [REQUEST_LIMIT] at hfull
  have hrej : (rate_limit_step (List.replicate 100 (0 : ℚ)) 0).1 = false := by rw [hfull]
  have hadm : (rate_limit_step (List.replicate 100 (0 : ℚ)) 61).1 = true := by
    have hc : ¬ ((61 : ℚ) - TIME_WINDOW < 0) := by unfold TIME_WINDOW; linarith
    unfold rate_limit_step
    simp only [filter_gt_replicate_none 100 (0 : ℚ) _ hc, List.length_nil]
    rw [if_neg (by norm_num [REQUEST_LIMIT])]
  have h := c9_reject_records_nothing (List.replicate 100 (0 : ℚ)) 0 hrej
  exact ⟨hrej, h.1, h.2.1, h.2.2 61 hadm⟩

/-! ## Fetch lemmas -/

theorem fetchBody_ok_sanitized (id : String) (clk : Clock)
    (devicesRes : Except PyErr (List Device)) (snap : Device → Except PyErr Props) (v : Value)
    (h : fetchBody id clk devicesRes snap = .ok v) :
    ∃ c : Value, v = sanitize_output c := by
  unfold fetchBody at h
  split at h
  · cases h
  · split at h
    · cases h
    · split at h
      · cases h
      · split at h
        · cases h
        · split at h
          · cases h
          · injection h with h2
            exact ⟨_, h2.symm⟩

/-- C10: for every id, `fetch` either returns a sanitized document or
fails with a `ValueError` whose message contains the requested id; no
other exception class escapes, whatever the roster or snapshot calls do. -/
theorem c10_fetch_raises_only_valueerror (id : String) (clk : Clock)
    (devicesRes : Except PyErr (List Device)) (snap : Device → Except PyErr Props) :
    (∃ c : Value, fetch id clk devicesRes snap = .ok (sanitize_output c)) ∨
    (∃ m : String, fetch id clk devicesRes snap = .error ⟨"ValueError", m⟩ ∧
      ∃ a b : String, m = a ++ id ++ b) := by
  unfold fetch
  by_cases hid : id = ""
  · subst hid
    right
    exact ⟨"Document ID is required", by rw [if_pos rfl], "", "Document ID is required", rfl⟩
  · rw [if_neg hid]
    rcases hb : fetchBody id clk devicesRes snap with e | v
    · right
      exact ⟨"Unable to fetch document " ++ id ++ ": " ++ e.msg, rfl,
             "Unable to fetch document ", ": " ++ e.msg, (String.append_assoc _ _ _)⟩
    · left
      obtain ⟨c, hc⟩ := fetchBody_ok_sanitized id clk devicesRes snap v hb
      exact ⟨c, by rw [hc]⟩

theorem cat_id_ne_empty (cat s : String) : cat ++ "_" ++ s ≠ "" := by
  intro h
  have h2 := congrArg String.data h
  simp [String.data_append] at h2

theorem splitOnceAux_no_sep (l : List Char) :
    ∀ (acc rest : List Char), '_' ∉ l →
      splitOnceAux acc (l ++ '_' :: rest) = some (⟨acc.reverse ++ l⟩, ⟨rest⟩) := by
  induction l with
  | nil =>
      intro acc rest _
      simp [splitOnceAux]
  | cons c cs ih =>
      intro acc rest h
      have hc : ¬ (c = '_') := fun hh => h (hh ▸ List.mem_cons_self c cs)
      have hcs : '_' ∉ cs := fun hm => h (List.mem_cons_of_mem c hm)
      simp only [List.cons_append, splitOnceAux, if_neg hc]
      show splitOnceAux (c :: acc) (cs ++ '_' :: rest) = some (⟨acc.reverse ++ c :: cs⟩, ⟨rest⟩)
      rw [ih (c :: acc) rest hcs]
      simp [List.reverse_cons, List.append_assoc]

theorem splitOnce_append (cat s : String) (h : '_' ∉ cat.data) :
    splitOnce (cat ++ "_" ++ s) = some (cat, s) := by
  unfold splitOnce
  have hdata : (cat ++ "_" ++ s).data = cat.data ++ '_' :: s.data := by
    simp [String.data_append]
  rw [hdata, splitOnceAux_no_sep cat.data [] s.data h]
  cases cat
  cases s
  simp

/-- Evaluation of `fetch` on a well-formed id resolving to a device whose
snapshot succeeds. -/
theorem fetch_eval (id cat : String) (clk : Clock) (devices : List Device) (d : Device)
    (p : Props) (snap : Device → Except PyErr Props)
    (hid : id ≠ "") (hsp : splitOnce id = some (cat, d.serial))
    (hfind : devices.find? (fun x => x.serial == d.serial) = some d)
    (hsnap : snap d = .ok p) (content : Value)
    (hgen : genContent cat d p clk = .ok content) :
    fetch id clk (.ok devices) snap = .ok (sanitize_output content) := by
  unfold fetch fetchBody
  rw [if_neg hid]
  simp only [hsp, hfind, hsnap, hgen]

theorem vitals_doc_fields (d : Device) (p : Props) (clk : Clock) :
    getPath (sanitize_output (generate_vitals_content d p clk)) ["id"] =
      some (.str ("vitals_" ++ d.serial)) ∧
    getPath (sanitize_output (generate_vitals_content d p clk)) ["metadata", "data_type"] =
      some (.str "vitals") := ⟨rfl, rfl⟩

theorem alerts_doc_fields (d : Device) (p : Props) (clk : Clock) :
    getPath (sanitize_output (generate_alerts_content d p clk)) ["id"] =
      some (.str ("alerts_" ++ d.serial)) ∧
    getPath (sanitize_output (generate_alerts_content d p clk)) ["metadata", "data_type"] =
      some (.str "alerts") := ⟨rfl, rfl⟩

theorem status_doc_fields (d : Device) (p : Props) (clk : Clock) :
    getPath (sanitize_output (generate_status_content d p clk)) ["id"] =
      some (.str ("status_" ++ d.serial)) ∧
    getPath (sanitize_output (generate_status_content d p clk)) ["metadata", "data_type"] =
      some (.str "status") := ⟨rfl, rfl⟩

theorem wellness_doc_fields (d : Device) (p : Props) (clk : Clock) :
    getPath (sanitize_output (generate_wellness_content d p clk)) ["id"] =
      some (.str ("wellness_" ++ d.serial)) ∧
    getPath (sanitize_output (generate_wellness_content d p clk)) ["metadata", "data_type"] =
      some (.str "wellness") := ⟨rfl, rfl⟩

theorem history_doc_fields (d : Device) (p : Props) (clk : Clock) :
    getPath (sanitize_output (generate_history_content d p clk)) ["id"] =
      some (.str ("history_" ++ d.serial)) ∧
    getPath (sanitize_output (generate_history_content d p clk)) ["metadata", "data_type"] =
      some (.str "history") := ⟨rfl, rfl⟩

theorem live_doc_fields (d : Device) (p : Props) (clk : Clock) :
    getPath (sanitize_output (generate_live_content d p clk)) ["id"] =
      some (.str ("live_" ++ d.serial)) ∧
    getPath (sanitize_output (generate_live_content d p clk)) ["metadata", "data_type"] =
      some (.str "live_feed") := ⟨rfl, rfl⟩

theorem device_doc_fields (d : Device) (p : Props) (clk : Clock) :
    getPath (sanitize_output (generate_device_content d p clk)) ["id"] =
      some (.str ("device_" ++ d.serial)) ∧
    getPath (sanitize_output (generate_device_content d p clk)) ["metadata", "data_type"] =
      some (.str "device_info") := ⟨rfl, rfl⟩

/-- The `data_type` tag each fetched category actually carries: five
categories echo themselves, while `live` is tagged `live_feed` and
`device` is tagged `device_info`. -/
def expectedDataType (cat : String) : String :=
  if cat = "live" then "live_feed" else if cat = "device" then "device_info" else cat

/-- C1 (amended): fetching an id of the form `<category>_<serial>` as
produced by a prior search, for a device still in the roster and a
successful snapshot, succeeds and returns a document whose `id` field
equals the input id; its `metadata.data_type` equals the parsed category
for vitals, alerts, status, wellness and history, while `live` is tagged
`live_feed` and `device` is tagged `device_info`. -/
theorem c1_fetch_round_trip (cat : String)
    (hcat : cat ∈ ["vitals", "alerts", "status", "wellness", "history", "live", "device"])
    (clk : Clock) (devices : List Device) (d : Device) (p : Props)
    (snap : Device → Except PyErr Props)
    (hfind : devices.find? (fun x => x.serial == d.serial) = some d)
    (hsnap : snap d = .ok p) :
    fetchedField (fetch (cat ++ "_" ++ d.serial) clk (.ok devices) snap) ["id"] =
      some (.str (cat ++ "_" ++ d.serial)) ∧
    fetchedField (fetch (cat ++ "_" ++ d.serial) clk (.ok devices) snap)
        ["metadata", "data_type"] = some (.str (expectedDataType cat)) := by
  have hne := cat_id_ne_empty cat d.serial
  simp only [List.mem_cons, List.not_mem_nil, or_false] at hcat
  rcases hcat with h | h | h | h | h | h | h <;> subst h
  · rw [fetch_eval _ "vitals" clk devices d p snap hne
      (splitOnce_append _ _ (by decide)) hfind hsnap _ rfl]
    exact ⟨(vitals_doc_fields d p clk).1, (vitals_doc_fields d p clk).2⟩
  · rw [fetch_eval _ "alerts" clk devices d p snap hne
      (splitOnce_append _ _ (by decide)) hfind hsnap _ rfl]
    exact ⟨(alerts_doc_fields d p clk).1, (alerts_doc_fields d p clk).2⟩
  · rw [fetch_eval _ "status" clk devices d p snap hne
      (splitOnce_append _ _ (by decide)) hfind hsnap _ rfl]
    exact ⟨(status_doc_fields d p clk).1, (status_doc_fields d p clk).2⟩
  · rw [fetch_eval _ "wellness" clk devices d p snap hne
      (splitOnce_append _ _ (by decide)) hfind hsnap _ rfl]
    exact ⟨(wellness_doc_fields d p clk).1, (wellness_doc_fields d p clk).2⟩
  · rw [fetch_eval _ "history" clk devices d p snap hne
      (splitOnce_append _ _ (by decide)) hfind hsnap _ rfl]
    exact ⟨(history_doc_fields d p clk).1, (history_doc_fields d p clk).2⟩
  · rw [fetch_eval _ "live" clk devices d p snap hne
      (splitOnce_append _ _ (by decide)) hfind hsnap _ rfl]
    exact ⟨(live_doc_fields d p clk).1, (live_doc_fields d p clk).2⟩
  · rw [fetch_eval _ "device" clk devices d p snap hne
      (splitOnce_append _ _ (by decide)) hfind hsnap _ rfl]
    exact ⟨(device_doc_fields d p clk).1, (device_doc_fields d p clk).2⟩

/-- Witness for C1 at a concrete roster, id `vitals_S1`. -/
theorem c1_fetch_round_trip_witness :
    [dev0].find? (fun x => x.serial == dev0.serial) = some dev0 ∧
    snapEmpty dev0 = .ok [] ∧
    fetchedField (fetch "vitals_S1" clk0 (.ok [dev0]) snapEmpty) ["id"] =
      some (.str "vitals_S1") ∧
    fetchedField (fetch "vitals_S1" clk0 (.ok [dev0]) snapEmpty) ["metadata", "data_type"] =
      some (.str "vitals") := by
  have h := c1_fetch_round_trip "vitals" (by decide) clk0 [dev0] dev0 [] snapEmpty rfl rfl
  exact ⟨rfl, rfl, h.1, h.2⟩

/-- C1 counterexample: the document fetched for a `live` id carries
`metadata.data_type = "live_feed"`, not the parsed category `live`. -/
theorem c1_counterexample :
    fetchedField (fetch "live_S1" clk0 (.ok [dev0]) snapEmpty) ["metadata", "data_type"] =
      some (.str "live_feed") ∧
    "live_feed" ≠ "live" := ⟨rfl, by decide⟩

/-- C2 (amended): `fetch` fails on an empty id, on an id with no
separator, on a serial absent from the roster, and on an unknown category
(checked only after the device lookup and snapshot succeed); all four
failures raise the same exception class `ValueError` and are telling each
other apart only by message text, not by a distinct error type. -/
theorem c2_fetch_failure_modes (id : String) (clk : Clock) (devices : List Device)
    (snap : Device → Except PyErr Props) :
    (id = "" → fetch id clk (.ok devices) snap =
      .error ⟨"ValueError", "Document ID is required"⟩) ∧
    (id ≠ "" → splitOnce id = none →
      fetch id clk (.ok devices) snap =
        .error ⟨"ValueError",
          "Unable to fetch document " ++ id ++ ": " ++ ("Invalid document ID format: " ++ id)⟩) ∧
    (∀ data_type serial, id ≠ "" → splitOnce id = some (data_type, serial) →
      devices.find? (fun x => x.serial == serial) = none →
      fetch id clk (.ok devices) snap =
        .error ⟨"ValueError",
          "Unable to fetch document " ++ id ++ ": " ++ ("Device " ++ serial ++ " not found")⟩) ∧
    (∀ data_type serial d p, id ≠ "" → splitOnce id = some (data_type, serial) →
      devices.find? (fun x => x.serial == serial) = some d →
      snap d = .ok p →
      data_type ∉ ["vitals", "alerts", "status", "wellness", "history", "live", "device"] →
      fetch id clk (.ok devices) snap =
        .error ⟨"ValueError",
          "Unable to fetch document " ++ id ++ ": " ++ ("Unknown data type: " ++ data_type)⟩) := by
  refine ⟨?_, ?_, ?_, ?_⟩
  · intro h
    subst h
    unfold fetch
    rw [if_pos rfl]
  · intro hne hsp
    unfold fetch fetchBody
    rw [if_neg hne]
    simp only [hsp]
  · intro data_type serial hne hsp hfind
    unfold fetch fetchBody
    rw [if_neg hne]
    simp only [hsp, hfind]
  · intro data_type serial d p hne hsp hfind hsnap hnotin
    simp only [List.mem_cons, List.not_mem_nil, or_false, not_or] at hnotin
    obtain ⟨h1, h2, h3, h4, h5, h6, h7⟩ := hnotin
    unfold fetch fetchBody genContent
    rw [if_neg hne]
    simp only [hsp, hfind, hsnap, if_neg h1, if_neg h2, if_neg h3, if_neg h4, if_neg h5,
      if_neg h6, if_neg h7]

/-- Witness for C2 at the four concrete failing inputs. -/
theorem c2_fetch_failure_modes_witness :
    fetch "" clk0 (.ok [dev0]) snapEmpty = .error ⟨"ValueError", "Document ID is required"⟩ ∧
    fetch "bogus" clk0 (.ok [dev0]) snapEmpty =
      .error ⟨"ValueError", "Unable to fetch document bogus: Invalid document ID format: bogus"⟩ ∧
    fetch "vitals_UNKNOWN" clk0 (.ok [dev0]) snapEmpty =
      .error ⟨"ValueError", "Unable to fetch document vitals_UNKNOWN: Device UNKNOWN not found"⟩ ∧
    fetch "foo_S1" clk0 (.ok [dev0]) snapEmpty =
      .error ⟨"ValueError", "Unable to fetch document foo_S1: Unknown data type: foo"⟩ := by
  refine ⟨(c2_fetch_failure_modes "" clk0 [dev0] snapEmpty).1 rfl, ?_, ?_, ?_⟩
  · exact (c2_fetch_failure_modes "bogus" clk0 [dev0] snapEmpty).2.1 (by decide) rfl
  · exact (c2_fetch_failure_modes "vitals_UNKNOWN" clk0 [dev0] snapEmpty).2.2.1
      "vitals" "UNKNOWN" (by decide) rfl rfl
  · exact (c2_fetch_failure_modes "foo_S1" clk0 [dev0] snapEmpty).2.2.2
      "foo" "S1" dev0 [] (by decide) rfl rfl rfl (by decide)

/-- C2 counterexample: the no-separator failure and the unknown-device
failure surface as the same exception class `ValueError`; there is no
distinct `NotFoundError` type for the caller to tell them apart by. -/
theorem c2_counterexample :
    errType (fetch "bogus" clk0 (.ok [dev0]) snapEmpty) = some "ValueError" ∧
    errType (fetch "vitals_UNKNOWN" clk0 (.ok [dev0]) snapEmpty) = some "ValueError" ∧
    errType (fetch "bogus" clk0 (.ok [dev0]) snapEmpty) =
      errType (fetch "vitals_UNKNOWN" clk0 (.ok [dev0]) snapEmpty) :=
  ⟨rfl, rfl, rfl⟩

/-! ## Search lemmas -/

theorem string_eq_empty_of_length {s : String} (h : s.length = 0) : s = "" := by
  cases s with
  | mk data =>
      cases data with
      | nil => rfl
      | cons c cs => simp [String.length] at h

/-- C3 (amended): an empty or whitespace-only query makes `search` return
an empty result list (zero documents, not an error document), while a
non-blank query longer than 500 characters makes it return exactly one
error document; in both cases `search` returns a well-formed response
rather than raising. -/
theorem c3_search_validation (query : String) (clk : Clock)
    (devicesRes : Except PyErr (List Device)) (snap : Device → Except PyErr Props) :
    ((query = "" ∨ pyStrip query = "") →
      search query clk devicesRes snap = .obj [("results", .arr [])]) ∧
    (pyStrip query ≠ "" → 500 < query.length →
      search query clk devicesRes snap = .obj [("results", .arr [invalid_query_doc])]) := by
  constructor
  · intro h
    unfold search
    rw [if_pos h]
  · intro hstrip hlen
    have hq : ¬ (query = "" ∨ pyStrip query = "") := by
      rintro (h | h)
      · exact hstrip (by rw [h]; rfl)
      · exact hstrip h
    have hval : validate_query query = false := by
      unfold validate_query
      have hc : ¬ (query = "" ∨ (pyStrip query).length = 0) := by
        rintro (h | h)
        · exact hq (Or.inl h)
        · exact hstrip (string_eq_empty_of_length h)
      rw [if_neg hc, if_pos hlen]
    unfold search
    rw [if_neg hq, if_pos hval]

def longQuery : String := ⟨List.replicate 501 'a'⟩

set_option maxRecDepth 10000 in
/-- Witness for C3 at a whitespace-only query and a 501-character query. -/
theorem c3_search_validation_witness :
    pyStrip " " = "" ∧
    search " " clk0 (.ok [dev0]) snapEmpty = .obj [("results", .arr [])] ∧
    pyStrip longQuery ≠ "" ∧ 500 < longQuery.length ∧
    search longQuery clk0 (.ok [dev0]) snapEmpty = .obj [("results", .arr [invalid_query_doc])] := by
  refine ⟨rfl, (c3_search_validation " " clk0 (.ok [dev0]) snapEmpty).1 (Or.inr rfl),
    by decide, by decide, ?_⟩
  exact (c3_search_validation longQuery clk0 (.ok [dev0]) snapEmpty).2 (by decide) (by decide)

/-- C3 counterexample: for the empty query the result set holds zero
documents, not the single error document the claim requires. -/
theorem c3_counterexample :
    resultsCount (search "" clk0 (.ok [dev0]) snapEmpty) = some 0 ∧
    resultsCount (search "" clk0 (.ok [dev0]) snapEmpty) ≠ some 1 :=
  ⟨rfl, by decide⟩

theorem deviceResults_no_match (query_lower : String) (clk : Clock)
    (snap : Device → Except PyErr Props) (d : Device)
    (h1 : matchesAny query_lower vitals_terms = false)
    (h2 : matchesAny query_lower alert_terms = false)
    (h3 : matchesAny query_lower status_terms = false)
    (h4 : matchesAny query_lower wellness_terms = false)
    (h5 : matchesAny query_lower history_terms = false)
    (h6 : matchesAny query_lower live_terms = false) :
    deviceResults query_lower clk snap d = [] := by
  unfold deviceResults
  rcases hsd : snap d with e | p
  · rfl
  · simp [h1, h2, h3, h4, h5, h6]

theorem flatten_nil_of_all_nil {α β : Type} (l : List α) (f : α → List β)
    (h : ∀ a ∈ l, f a = []) : (l.map f).flatten = [] := by
  induction l with
  | nil => rfl
  | cons x xs ih =>
      simp [h x (List.mem_cons_self x xs), ih (fun a ha => h a (List.mem_cons_of_mem x ha))]

theorem sanitize_fallback (d : Device) :
    sanitize_output (deviceFallbackDoc d) = deviceFallbackDoc d := rfl

theorem sanitizeElems_fallback (devices : List Device) :
    sanitizeElems (devices.map deviceFallbackDoc) = devices.map deviceFallbackDoc := by
  induction devices with
  | nil => rfl
  | cons d ds ih => simp [List.map_cons, sanitizeElems, sanitize_fallback, ih]

theorem validate_query_true {q : String} (h : validate_query q = true) :
    ¬ (q = "" ∨ (pyStrip q).length = 0) ∧ q.length ≤ 500 := by
  unfold validate_query at h
  by_cases h1 : q = "" ∨ (pyStrip q).length = 0
  · rw [if_pos h1] at h; cases h
  · refine ⟨h1, ?_⟩
    by_cases h2 : 500 < q.length
    · rw [if_neg h1, if_pos h2] at h; cases h
    · omega

/-- C5: a valid query matching none of the six keyword categories, with a
non-empty roster, makes `search` return exactly one generic `device`
document per device: the result set is never empty while devices exist. -/
theorem c5_search_generic_fallback (query : String) (clk : Clock) (devices : List Device)
    (snap : Device → Except PyErr Props)
    (hval : validate_query query = true)
    (h1 : matchesAny (pyLower query) vitals_terms = false)
    (h2 : matchesAny (pyLower query) alert_terms = false)
    (h3 : matchesAny (pyLower query) status_terms = false)
    (h4 : matchesAny (pyLower query) wellness_terms = false)
    (h5 : matchesAny (pyLower query) history_terms = false)
    (h6 : matchesAny (pyLower query) live_terms = false)
    (hdev : devices ≠ []) :
    search query clk (.ok devices) snap =
      .obj [("results", .arr (devices.map deviceFallbackDoc))] := by
  obtain ⟨hq, _⟩ := validate_query_true hval
  have hq2 : ¬ (query = "" ∨ pyStrip query = "") := by
    rintro (h | h)
    · exact hq (Or.inl h)
    · exact hq (Or.inr (by rw [h]; rfl))
  have hde : devices.isEmpty = false := by
    cases devices
    · exact absurd rfl hdev
    · rfl
  have hflat : ((devices.map (deviceResults (pyLower query) clk snap)).flatten) = [] :=
    flatten_nil_of_all_nil _ _
      (fun d _ => deviceResults_no_match _ clk snap d h1 h2 h3 h4 h5 h6)
  have hvalne : ¬ (validate_query query = false) := by rw [hval]; simp
  unfold search
  rw [if_neg hq2, if_neg hvalne]
  simp only [hde, Bool.false_eq_true, if_false, hflat, List.isEmpty_nil, if_true,
    sanitize_output, sanitizeElems_fallback]

/-- Witness for C5: the query `qqq` matches no category and yields one
generic document for the single device. -/
theorem c5_search_generic_fallback_witness :
    validate_query "qqq" = true ∧
    matchesAny (pyLower "qqq") vitals_terms = false ∧
    matchesAny (pyLower "qqq") alert_terms = false ∧
    matchesAny (pyLower "qqq") status_terms = false ∧
    matchesAny (pyLower "qqq") wellness_terms = false ∧
    matchesAny (pyLower "qqq") history_terms = false ∧
    matchesAny (pyLower "qqq") live_terms = false ∧
    search "qqq" clk0 (.ok [dev0]) snapEmpty =
      .obj [("results", .arr [deviceFallbackDoc dev0])] := by
  refine ⟨rfl, rfl, rfl, rfl, rfl, rfl, rfl, ?_⟩
  exact c5_search_generic_fallback "qqq" clk0 [dev0] snapEmpty rfl rfl rfl rfl rfl rfl rfl
    (by simp)

/-! ## Temperature conversion (C7) and classification (C8) -/

theorem pyFormat1_eq (q : ℚ) (n : ℤ) (h : ⌊q * 10 + 1 / 2⌋ = n) :
    pyFormat1 q = toString (n / 10) ++ "." ++ toString (n % 10) := by
  unfold pyFormat1
  rw [h]

/-- C7 (amended): both vitals formatters convert a raw skin temperature
to celsius by dividing by 10 exactly when the raw value exceeds 100; the
detailed (fetch-side) formatter additionally computes fahrenheit as
celsius * 9 / 5 + 32, while the search-side summary reports only the
celsius value and computes no fahrenheit. -/
theorem c7_temperature_conversion (p : Props) (raw : ℚ) (d : Device) (clk : Clock)
    (name serial : String)
    (hskin : lookupStr p "skin_temperature" = some (.num raw)) :
    getPath (vitalsData d p clk) ["vitals", "skin_temperature", "celsius"] =
      some (.num (if raw > 100 then raw / 10 else raw)) ∧
    getPath (vitalsData d p clk) ["vitals", "skin_temperature", "fahrenheit"] =
      some (.num ((if raw > 100 then raw / 10 else raw) * 9 / 5 + 32)) ∧
    (lookupStr p "heart_rate" = none → lookupStr p "oxygen_saturation" = none →
      getPath (format_vitals_for_search p name serial) ["text"] =
        some (.str ("Temp: " ++ pyFormat1 (if raw > 100 then raw / 10 else raw) ++ "°C"))) := by
  refine ⟨?_, ?_, ?_⟩
  · unfold vitalsData
    rcases hhr : lookupStr p "heart_rate" with _ | hv <;>
    rcases hox : lookupStr p "oxygen_saturation" with _ | ov <;>
      simp [getPath, getKey, lookupStr, hhr, hox, hskin, toQ]
  · unfold vitalsData
    rcases hhr : lookupStr p "heart_rate" with _ | hv <;>
    rcases hox : lookupStr p "oxygen_saturation" with _ | ov <;>
      simp [getPath, getKey, lookupStr, hhr, hox, hskin, toQ]
  · intro hhr hox
    unfold format_vitals_for_search
    simp [hhr, hox, hskin, getPath, getKey, lookupStr, toQ, pyJoin]

def p365 : Props := [("skin_temperature", .num 365)]

def p36 : Props := [("skin_temperature", .num 36)]

/-- Witness for C7 at the raw readings 365 and 36. -/
theorem c7_temperature_conversion_witness :
    lookupStr p365 "skin_temperature" = some (.num 365) ∧
    getPath (vitalsData dev0 p365 clk0) ["vitals", "skin_temperature", "celsius"] =
      some (.num 36.5) ∧
    getPath (vitalsData dev0 p365 clk0) ["vitals", "skin_temperature", "fahrenheit"] =
      some (.num 97.7) ∧
    getPath (vitalsData dev0 p36 clk0) ["vitals", "skin_temperature", "celsius"] =
      some (.num 36) ∧
    getPath (vitalsData dev0 p36 clk0) ["vitals", "skin_temperature", "fahrenheit"] =
      some (.num 96.8) := by
  have h365 := c7_temperature_conversion p365 365 dev0 clk0 "n" "s" rfl
  have h36 := c7_temperature_conversion p36 36 dev0 clk0 "n" "s" rfl
  refine ⟨rfl, ?_, ?_, ?_, ?_⟩
  · rw [h365.1, if_pos (by norm_num : (365 : ℚ) > 100)]
    norm_num
  · rw [h365.2.1, if_pos (by norm_num : (365 : ℚ) > 100)]
    norm_num
  · rw [h36.1, if_neg (by norm_num : ¬ ((36 : ℚ) > 100))]
  · rw [h36.2.1, if_neg (by norm_num : ¬ ((36 : ℚ) > 100))]
    norm_num

/-- C7 counterexample: the search-side summary for a raw reading of 365
renders only the celsius value; no fahrenheit value (97.7) appears in the
produced document text. -/
theorem c7_counterexample :
    getPath (format_vitals_for_search p365 "Baby" "S1") ["text"] =
      some (.str "Temp: 36.5°C") ∧
    containsTerm "Temp: 36.5°C" "97.7" = false := by
  constructor
  · have hfmt : pyFormat1 ((365 : ℚ) / 10) = "36.5" := by
      rw [pyFormat1_eq ((365 : ℚ) / 10) 365 (by norm_num)]
      rfl
    have hstep : getPath (format_vitals_for_search p365 "Baby" "S1") ["text"] =
        some (.str ("Temp: " ++ pyFormat1 ((365 : ℚ) / 10) ++ "°C")) := rfl
    rw [hstep, hfmt]
    rfl
  · decide

/-- C8 (amended): in the detailed vitals and wellness outputs, a heart
rate is classified normal exactly when 60 ≤ hr ≤ 160 and oxygen
saturation exactly when ≥ 95 (attention_needed otherwise); however the
skin-temperature field always carries the classification "normal"
regardless of its value, the movement field carries "active"/"calm" with
threshold 5, and only sleep_state passes through with no status. -/
theorem c8_vital_classifications (d : Device) (p : Props) (clk : Clock) :
    (∀ hr : ℚ, lookupStr p "heart_rate" = some (.num hr) →
      getPath (vitalsData d p clk) ["vitals", "heart_rate", "status"] =
        some (.str (if 60 ≤ hr ∧ hr ≤ 160 then "normal" else "attention_needed")) ∧
      getPath (wellnessData d p clk) ["current_vitals", "heart_rate", "status"] =
        some (.str (if 60 ≤ hr ∧ hr ≤ 160 then "normal" else "attention_needed"))) ∧
    (∀ ox : ℚ, lookupStr p "oxygen_saturation" = some (.num ox) →
      getPath (vitalsData d p clk) ["vitals", "oxygen_saturation", "status"] =
        some (.str (if 95 ≤ ox then "normal" else "attention_needed")) ∧
      getPath (wellnessData d p clk) ["current_vitals", "oxygen_saturation", "status"] =
        some (.str (if 95 ≤ ox then "normal" else "attention_needed"))) ∧
    (∀ s : ℚ, lookupStr p "skin_temperature" = some (.num s) →
      getPath (vitalsData d p clk) ["vitals", "skin_temperature", "status"] =
        some (.str "normal")) ∧
    (∀ m : ℚ, lookupStr p "movement" = some (.num m) →
      getPath (vitalsData d p clk) ["vitals", "movement", "status"] =
        some (.str (if m > 5 then "active" else "calm"))) ∧
    (∀ v : Value, lookupStr p "sleep_state" = some v →
      getPath (vitalsData d p clk) ["vitals", "sleep_state", "status"] = none) := by
  refine ⟨?_, ?_, ?_, ?_, ?_⟩
  · intro hr hhr
    constructor
    · unfold vitalsData
      simp [getPath, getKey, lookupStr, hhr, toQ]
    · unfold wellnessData
      simp [getPath, getKey, lookupStr, hhr, toQ]
  · intro ox hox
    constructor
    · unfold vitalsData
      rcases hhr : lookupStr p "heart_rate" with _ | hv <;>
        simp [getPath, getKey, lookupStr, hhr, hox, toQ]
    · unfold wellnessData
      rcases hhr : lookupStr p "heart_rate" with _ | hv <;>
        simp [getPath, getKey, lookupStr, hhr, hox, toQ]
  · intro s hs
    unfold vitalsData
    rcases hhr : lookupStr p "heart_rate" with _ | hv <;>
    rcases hox : lookupStr p "oxygen_saturation" with _ | ov <;>
      simp [getPath, getKey, lookupStr, hhr, hox, hs, toQ]
  · intro m hm
    unfold vitalsData
    rcases hhr : lookupStr p "heart_rate" with _ | hv <;>
    rcases hox : lookupStr p "oxygen_saturation" with _ | ov <;>
    rcases hsk : lookupStr p "skin_temperature" with _ | sv <;>
    rcases hsl : lookupStr p "sleep_state" with _ | lv <;>
      simp [getPath, getKey, lookupStr, hhr, hox, hsk, hsl, hm, toQ]
  · intro v hv
    unfold vitalsData
    rcases hhr : lookupStr p "heart_rate" with _ | hv2 <;>
    rcases hox : lookupStr p "oxygen_saturation" with _ | ov <;>
    rcases hsk : lookupStr p "skin_temperature" with _ | sv <;>
      simp [getPath, getKey, lookupStr, hhr, hox, hsk, hv, toQ]

def pAll : Props :=
  [("heart_rate", .num 200), ("oxygen_saturation", .num 90),
   ("skin_temperature", .num 365), ("sleep_state", .num 2), ("movement", .num 3)]

/-- Witness for C8 at a snapshot with an out-of-range heart rate and
oxygen saturation, a temperature reading, and a calm movement level. -/
theorem c8_vital_classifications_witness :
    getPath (vitalsData dev0 pAll clk0) ["vitals", "heart_rate", "status"] =
      some (.str "attention_needed") ∧
    getPath (wellnessData dev0 pAll clk0) ["current_vitals", "oxygen_saturation", "status"] =
      some (.str "attention_needed") ∧
    getPath (vitalsData dev0 pAll clk0) ["vitals", "skin_temperature", "status"] =
      some (.str "normal") ∧
    getPath (vitalsData dev0 pAll clk0) ["vitals", "movement", "status"] =
      some (.str "calm") ∧
    getPath (vitalsData dev0 pAll clk0) ["vitals", "sleep_state", "status"] = none := by
  have h := c8_vital_classifications dev0 pAll clk0
  refine ⟨?_, ?_, ?_, ?_, ?_⟩
  · rw [(h.1 200 rfl).1, if_neg (by norm_num)]
  · rw [(h.2.1 90 rfl).2, if_neg (by norm_num)]
  · exact h.2.2.1 365 rfl
  · rw [h.2.2.2.1 3 rfl, if_neg (by norm_num)]
  · exact h.2.2.2.2 (.num 2) rfl

def p500 : Props := [("skin_temperature", .num 500)]

/-- C8 counterexample: the skin-temperature field — neither heart rate
nor oxygen saturation — carries a "normal" classification, here even for
a raw reading of 500 (50 celsius). -/
theorem c8_counterexample :
    getPath (vitalsData dev0 p500 clk0) ["vitals", "skin_temperature", "status"] =
      some (.str "normal") ∧
    getPath (vitalsData dev0 p500 clk0) ["vitals", "skin_temperature", "celsius"] =
      some (.num 50) := by
  constructor
  · rfl
  · have hstep : getPath (vitalsData dev0 p500 clk0) ["vitals", "skin_temperature", "celsius"] =
        some (.num ((500 : ℚ) / 10)) := rfl
    rw [hstep]
    norm_num

end Owlet
